import Mathlib

/-!
Shallow embedding of the rock-sample lifecycle engine of `src/app.py`
(Flask routes over a MySQL store), together with the authorization
pre-checks and the role-scoped list queries, and proofs of the frozen
claims about them.

Conventions of the embedding:
* The relational store is a `DB` record of lists, one per table, in
  insertion order; SQL `INSERT` appends, `UPDATE ... WHERE` maps over the
  list, `DELETE ... WHERE` filters, `SELECT ... WHERE ... LIMIT 1`
  (`fetch_one`) is `List.find?`.
* `AUTO_INCREMENT` ids are modelled by explicit `next_*` counters;
  `execute_query` returning `cursor.lastrowid` is modelled by handing the
  counter value back to the caller.
* `NOW()` timestamps are a `now : Nat` argument; `DATE(x)` is day
  truncation of the numeric timestamp.
* Form values from `request.form.get` are `Option String` (absent field =
  `none`); fields the code strips and compares with `''` are plain
  `String`.  The latitude/longitude strings go through the source's
  three-way branch (empty / non-numeric / parsed float), modelled by
  `CoordField` with the parsed value as a rational.
* File uploads are `Option UploadFile`; the source's
  `if file and file.filename:` / `if data:` truthiness tests become
  emptiness tests on the name and the content size.
-/

namespace RockCatalog

/-- Status column of `rock_samples`: the only values the application ever
writes are `'pending'`, `'verified'` and `'rejected'`. -/
inductive Status
  | pending
  | verified
  | rejected
deriving DecidableEq

/-- A `rock_samples` row. -/
structure Sample where
  sample_id : Nat
  user_id : Nat
  rock_index : Option String
  rock_id : Option String
  rock_type : Option String
  description : String
  formation : String
  location_name : Option String
  barangay : Option String
  province : Option String
  latitude : Rat
  longitude : Rat
  status : Status
  verified_by : Option Nat
  created_at : Nat
  updated_at : Nat
deriving DecidableEq

/-- An `images` row (blob content abstracted to its size). -/
structure Image where
  image_id : Nat
  sample_id : Nat
  image_type : String
  file_name : String
  file_size : Nat
deriving DecidableEq

/-- An `archives` row. -/
structure Archive where
  archive_id : Nat
  sample_id : Nat
  archived_by : Nat
  archive_reason : String
  status : String
deriving DecidableEq

/-- An `activity_logs` row. -/
structure ActivityLog where
  user_id : Nat
  sample_id : Option Nat
  activity_type : String
  description : String
deriving DecidableEq

/-- An `approval_logs` row. -/
structure ApprovalLog where
  user_id : Nat
  sample_id : Nat
  action : String
  remarks : String
deriving DecidableEq

/-- A `users` row (only the columns the embedded operations touch). -/
structure User where
  user_id : Nat
  role : String
  is_active : Bool
deriving DecidableEq

/-- The relational store. -/
structure DB where
  samples : List Sample
  images : List Image
  archives : List Archive
  activity_logs : List ActivityLog
  approval_logs : List ApprovalLog
  users : List User
  next_sample_id : Nat
  next_image_id : Nat
  next_archive_id : Nat
deriving DecidableEq

/-- A latitude/longitude form field after `.strip()`: empty, non-numeric,
or parsed to a number. -/
inductive CoordField
  | missing
  | invalid
  | value (q : Rat)
deriving DecidableEq

/-- The add/edit form of the student routes (`request.form.get` values). -/
structure RockForm where
  rock_index : Option String
  rock_id : Option String
  rock_type : Option String
  description : String
  formation : String
  location_name : Option String
  barangay : Option String
  province : Option String
  latitude : CoordField
  longitude : CoordField
deriving DecidableEq

/-- The edit form of the personnel/admin edit routes (fields stripped,
missing = `""`). -/
structure EditForm where
  rock_id : String
  rock_type : String
  description : String
  location_name : String
  barangay : Option String
  province : Option String
  latitude : CoordField
  longitude : CoordField
  formation : String
  rock_index : String
deriving DecidableEq

/-- An uploaded file (`request.files.get`). -/
structure UploadFile where
  filename : String
  content_size : Nat
deriving DecidableEq

/-- The two image slots of the upload forms. -/
structure Uploads where
  rock_specimen : Option UploadFile
  outcrop_image : Option UploadFile
deriving DecidableEq

/-- Outcome of the add-rock routes. -/
inductive SubmitResult
  | validationError (message : String)
  | ok (sample_id : Nat)
deriving DecidableEq

/-- Outcome of the edit routes. -/
inductive EditResult
  | notFound
  | validationError (message : String)
  | ok
deriving DecidableEq

/-- Outcome of the delete route. -/
inductive DeleteResult
  | notFound
  | ok
deriving DecidableEq

/-- Outcome of the archive/unarchive routes. -/
inductive ArchiveResult
  | notFound
  | conflict
  | ok
deriving DecidableEq

/-- Outcome of the user-management routes. -/
inductive UserResult
  | rejected
  | notFound
  | ok
deriving DecidableEq

/-- Shared coordinate validation block (`app.py:387-402` and its copies):
empty check first, then numeric parse, then latitude range, then
longitude range. -/
def checkCoords : CoordField → CoordField → Except String (Rat × Rat)
  | CoordField.missing, _ => Except.error "Latitude and longitude are required."
  | _, CoordField.missing => Except.error "Latitude and longitude are required."
  | CoordField.invalid, _ => Except.error "Latitude and longitude must be numeric values."
  | _, CoordField.invalid => Except.error "Latitude and longitude must be numeric values."
  | CoordField.value la, CoordField.value lo =>
    if la < -90 ∨ la > 90 then
      Except.error "Latitude must be between -90 and 90 degrees."
    else if lo < -180 ∨ lo > 180 then
      Except.error "Longitude must be between -180 and 180 degrees."
    else Except.ok (la, lo)

/-- `log_activity` (`app.py:26`): append an `activity_logs` row. -/
def log_activity (db : DB) (user_id : Nat) (activity_type description : String)
    (sample_id : Option Nat) : DB :=
  { db with activity_logs :=
      db.activity_logs ++ [ActivityLog.mk user_id sample_id activity_type description] }

/-- The delete-then-insert image slot update shared by all add/edit
routes: if a file with a filename came in, delete existing images of that
type for the sample, and insert the new row when the data is non-empty.
Returns the new `images` table and `next_image_id`. -/
def uploadImages (images : List Image) (next_image_id sample_id : Nat)
    (image_type : String) (file : Option UploadFile) : List Image × Nat :=
  match file with
  | none => (images, next_image_id)
  | some f =>
    if f.filename = "" then (images, next_image_id)
    else
      let cleared := images.filter
        (fun im => !(im.sample_id == sample_id && im.image_type == image_type))
      if f.content_size = 0 then (cleared, next_image_id)
      else
        (cleared ++ [Image.mk next_image_id sample_id image_type f.filename f.content_size],
         next_image_id + 1)

/-- Apply `uploadImages` to the store. -/
def handleUpload (db : DB) (sample_id : Nat) (image_type : String)
    (file : Option UploadFile) : DB :=
  let r := uploadImages db.images db.next_image_id sample_id image_type file
  { db with
    images := r.1
    next_image_id := r.2 }

/-- `fetch_one(... FROM rock_samples WHERE sample_id = %s)`. -/
def readSample (db : DB) (sample_id : Nat) : Option Sample :=
  db.samples.find? (fun s => s.sample_id == sample_id)

/-- The fresh sample row inserted by `student_add_rock` (`app.py:411-417`):
status `'pending'`, no verifier. -/
def newPendingSample (sid user_id : Nat) (form : RockForm) (la lo : Rat)
    (now : Nat) : Sample :=
  { sample_id := sid
    user_id := user_id
    rock_index := form.rock_index
    rock_id := form.rock_id
    rock_type := form.rock_type
    description := form.description
    formation := form.formation
    location_name := form.location_name
    barangay := form.barangay
    province := form.province
    latitude := la
    longitude := lo
    status := Status.pending
    verified_by := none
    created_at := now
    updated_at := now }

/-- The auto-verified sample row inserted by `personnel_add_rock`
(`app.py:2612-2618`) and `admin_add_rock` (`app.py:3407-3413`): status
`'verified'`, `verified_by` = the actor. -/
def newVerifiedSample (sid user_id : Nat) (form : RockForm) (la lo : Rat)
    (now : Nat) : Sample :=
  { sample_id := sid
    user_id := user_id
    rock_index := form.rock_index
    rock_id := form.rock_id
    rock_type := form.rock_type
    description := form.description
    formation := form.formation
    location_name := form.location_name
    barangay := form.barangay
    province := form.province
    latitude := la
    longitude := lo
    status := Status.verified
    verified_by := some user_id
    created_at := now
    updated_at := now }

/-- `student_add_rock` (`app.py:370`), POST path: validate coordinates,
insert a `'pending'` sample (no `verified_by`), handle the two image
slots, log `'submitted'`. -/
def student_add_rock (user_id : Nat) (form : RockForm) (files : Uploads)
    (now : Nat) (db : DB) : SubmitResult × DB :=
  match checkCoords form.latitude form.longitude with
  | Except.error m => (SubmitResult.validationError m, db)
  | Except.ok (la, lo) =>
    let sid := db.next_sample_id
    let db1 := { db with
      samples := db.samples ++ [newPendingSample sid user_id form la lo now]
      next_sample_id := sid + 1 }
    let db2 := handleUpload db1 sid "rock_specimen" files.rock_specimen
    let db3 := handleUpload db2 sid "outcrop" files.outcrop_image
    (SubmitResult.ok sid,
     log_activity db3 user_id "submitted" "Submitted rock sample" (some sid))

/-- `personnel_add_rock` (`app.py:2571`), POST path: same validation, but
the inserted sample is auto-verified with `verified_by` = the actor. -/
def personnel_add_rock (user_id : Nat) (form : RockForm) (files : Uploads)
    (now : Nat) (db : DB) : SubmitResult × DB :=
  match checkCoords form.latitude form.longitude with
  | Except.error m => (SubmitResult.validationError m, db)
  | Except.ok (la, lo) =>
    let sid := db.next_sample_id
    let db1 := { db with
      samples := db.samples ++ [newVerifiedSample sid user_id form la lo now]
      next_sample_id := sid + 1 }
    let db2 := handleUpload db1 sid "rock_specimen" files.rock_specimen
    let db3 := handleUpload db2 sid "outcrop" files.outcrop_image
    (SubmitResult.ok sid,
     log_activity db3 user_id "submitted" "Personnel added rock sample" (some sid))

/-- `admin_add_rock` (`app.py:3363`), POST path: identical shape to the
personnel variant (auto-verified, `verified_by` = actor). -/
def admin_add_rock (user_id : Nat) (form : RockForm) (files : Uploads)
    (now : Nat) (db : DB) : SubmitResult × DB :=
  match checkCoords form.latitude form.longitude with
  | Except.error m => (SubmitResult.validationError m, db)
  | Except.ok (la, lo) =>
    let sid := db.next_sample_id
    let db1 := { db with
      samples := db.samples ++ [newVerifiedSample sid user_id form la lo now]
      next_sample_id := sid + 1 }
    let db2 := handleUpload db1 sid "rock_specimen" files.rock_specimen
    let db3 := handleUpload db2 sid "outcrop" files.outcrop_image
    (SubmitResult.ok sid,
     log_activity db3 user_id "submitted" "Admin added rock sample" (some sid))

/-- The scalar-column write-back of `student_edit_rock` (`app.py:525-538`):
replaces the form fields and writes the previously read `status` and
`verified_by` back. -/
def studentEditWrite (form : RockForm) (la lo : Rat) (now : Nat)
    (rock s : Sample) : Sample :=
  { s with
    rock_index := form.rock_index
    rock_id := form.rock_id
    rock_type := form.rock_type
    description := form.description
    formation := form.formation
    location_name := form.location_name
    barangay := form.barangay
    province := form.province
    latitude := la
    longitude := lo
    updated_at := now
    status := rock.status
    verified_by := rock.verified_by }

/-- `student_edit_rock` (`app.py:467`), POST path.  Pre-check
(`app.py:476-479`): the sample must belong to the student and have status
`'pending'` **or** `'verified'`.  Then the coordinate checks, the
write-back UPDATE, the image slot replacements, and the `'updated'`
activity log. -/
def student_edit_rock (sample_id user_id : Nat) (form : RockForm)
    (files : Uploads) (now : Nat) (db : DB) : EditResult × DB :=
  match db.samples.find? (fun s =>
      s.sample_id == sample_id && s.user_id == user_id &&
      (s.status == Status.pending || s.status == Status.verified)) with
  | none => (EditResult.notFound, db)
  | some rock =>
    match checkCoords form.latitude form.longitude with
    | Except.error m => (EditResult.validationError m, db)
    | Except.ok (la, lo) =>
      let samples1 := db.samples.map (fun s =>
        if s.sample_id == sample_id then studentEditWrite form la lo now rock s
        else s)
      let db1 := { db with samples := samples1 }
      let db2 := handleUpload db1 sample_id "rock_specimen" files.rock_specimen
      let db3 := handleUpload db2 sample_id "outcrop" files.outcrop_image
      (EditResult.ok,
       log_activity db3 user_id "updated" "Updated rock sample" (some sample_id))

/-- `student_delete_rock` (`app.py:617`): pre-check owner and `'pending'`
status; log `'deleted'` first, then delete the images and the sample
row. -/
def student_delete_rock (sample_id user_id : Nat) (db : DB) : DeleteResult × DB :=
  match db.samples.find? (fun s =>
      s.sample_id == sample_id && s.user_id == user_id &&
      s.status == Status.pending) with
  | none => (DeleteResult.notFound, db)
  | some _ =>
    let db1 := { db with
      activity_logs := db.activity_logs ++
        [ActivityLog.mk user_id (some sample_id) "deleted" "Rock sample deleted"] }
    let db2 := { db1 with
      images := db1.images.filter (fun im => !(im.sample_id == sample_id)) }
    (DeleteResult.ok,
     { db2 with
       samples := db2.samples.filter (fun s => !(s.sample_id == sample_id)) })

/-- The status/verifier overwrite of `personnel_verify_rock`
(`app.py:2064-2068` and `2083-2087`). -/
def decideWrite (st : Status) (user_id now : Nat) (s : Sample) : Sample :=
  { s with
    status := st
    verified_by := some user_id
    updated_at := now }

/-- `personnel_verify_rock` (`app.py:2055`): on `'approve'` set status
`'verified'` + `verified_by` and append one `approval_logs` and one
`activity_logs` row; on `'reject'` the `'rejected'` counterparts; any
other action does nothing.  There is **no** check that the sample is
pending (or even exists). -/
def personnel_verify_rock (sample_id user_id : Nat) (action remarks : String)
    (now : Nat) (db : DB) : DB :=
  if action = "approve" then
    let samples1 := db.samples.map (fun s =>
      if s.sample_id == sample_id then decideWrite Status.verified user_id now s
      else s)
    let db1 := { db with samples := samples1 }
    let db2 := { db1 with
      approval_logs := db1.approval_logs ++
        [ApprovalLog.mk user_id sample_id "approved" remarks] }
    { db2 with
      activity_logs := db2.activity_logs ++
        [ActivityLog.mk user_id (some sample_id) "approved" "Rock sample approved"] }
  else if action = "reject" then
    let samples1 := db.samples.map (fun s =>
      if s.sample_id == sample_id then decideWrite Status.rejected user_id now s
      else s)
    let db1 := { db with samples := samples1 }
    let db2 := { db1 with
      approval_logs := db1.approval_logs ++
        [ApprovalLog.mk user_id sample_id "rejected" remarks] }
    { db2 with
      activity_logs := db2.activity_logs ++
        [ActivityLog.mk user_id (some sample_id) "rejected" "Rock sample rejected"] }
  else db

/-- The scalar-column UPDATE of the personnel/admin edit routes
(`app.py:2714-2722`, `3543-3551`): `status` and `verified_by` are **not**
among the written columns. -/
def staffEditWrite (form : EditForm) (la lo : Rat) (now : Nat) (s : Sample) :
    Sample :=
  { s with
    rock_id := some form.rock_id
    rock_type := some form.rock_type
    description := form.description
    location_name := some form.location_name
    barangay := form.barangay
    province := form.province
    latitude := la
    longitude := lo
    formation := form.formation
    rock_index := some form.rock_index
    updated_at := now }

/-- `personnel_edit_rock` (`app.py:2668`), POST path: coordinate checks,
then the required-field check on rock id / type / location, then an
UPDATE that omits `status` and `verified_by`, image removals by id, slot
replacement, and an `'edited'` activity log. -/
def personnel_edit_rock (sample_id user_id : Nat) (form : EditForm)
    (files : Uploads) (remove_images : List Nat) (now : Nat) (db : DB) :
    EditResult × DB :=
  match checkCoords form.latitude form.longitude with
  | Except.error m => (EditResult.validationError m, db)
  | Except.ok (la, lo) =>
    if form.rock_id = "" ∨ form.rock_type = "" ∨ form.location_name = "" then
      (EditResult.validationError "Rock ID, Rock Type, and Location are required!", db)
    else
      let samples1 := db.samples.map (fun s =>
        if s.sample_id == sample_id then staffEditWrite form la lo now s else s)
      let db1 := { db with samples := samples1 }
      let images1 := db1.images.filter (fun im =>
        !(remove_images.contains im.image_id && im.sample_id == sample_id))
      let db2 := { db1 with images := images1 }
      let db3 := handleUpload db2 sample_id "rock_specimen" files.rock_specimen
      let db4 := handleUpload db3 sample_id "outcrop" files.outcrop_image
      (EditResult.ok,
       log_activity db4 user_id "edited" "Rock sample edited by personnel" (some sample_id))

/-- `admin_edit_rock` (`app.py:3497`), POST path: same shape as the
personnel edit (UPDATE omits `status`/`verified_by`). -/
def admin_edit_rock (sample_id user_id : Nat) (form : EditForm)
    (files : Uploads) (remove_images : List Nat) (now : Nat) (db : DB) :
    EditResult × DB :=
  match checkCoords form.latitude form.longitude with
  | Except.error m => (EditResult.validationError m, db)
  | Except.ok (la, lo) =>
    if form.rock_id = "" ∨ form.rock_type = "" ∨ form.location_name = "" then
      (EditResult.validationError "Rock ID, Rock Type, and Location are required!", db)
    else
      let samples1 := db.samples.map (fun s =>
        if s.sample_id == sample_id then staffEditWrite form la lo now s else s)
      let db1 := { db with samples := samples1 }
      let images1 := db1.images.filter (fun im =>
        !(remove_images.contains im.image_id && im.sample_id == sample_id))
      let db2 := { db1 with images := images1 }
      let db3 := handleUpload db2 sample_id "rock_specimen" files.rock_specimen
      let db4 := handleUpload db3 sample_id "outcrop" files.outcrop_image
      (EditResult.ok,
       log_activity db4 user_id "edited" "Rock sample edited by admin" (some sample_id))

/-- `personnel_archive_rock` (`app.py:2497`): inserts the `archives` row
and the `'archived'` activity log **unconditionally** — no check for an
existing archive row. -/
def personnel_archive_rock (sample_id user_id : Nat) (reason : String)
    (db : DB) : DB :=
  let db1 := { db with
    archives := db.archives ++
      [Archive.mk db.next_archive_id sample_id user_id reason "archived"]
    next_archive_id := db.next_archive_id + 1 }
  { db1 with
    activity_logs := db1.activity_logs ++
      [ActivityLog.mk user_id (some sample_id) "archived" "Rock sample archived"] }

/-- `admin_archive_rock` (`app.py:3641`): checks the sample exists, then
checks for an existing `archives` row (conflict), then inserts the row
and the activity log. -/
def admin_archive_rock (sample_id user_id : Nat) (reason : String)
    (db : DB) : ArchiveResult × DB :=
  match db.samples.find? (fun s => s.sample_id == sample_id) with
  | none => (ArchiveResult.notFound, db)
  | some _ =>
    match db.archives.find? (fun a => a.sample_id == sample_id) with
    | some _ => (ArchiveResult.conflict, db)
    | none =>
      let db1 := { db with
        archives := db.archives ++
          [Archive.mk db.next_archive_id sample_id user_id reason "archived"]
        next_archive_id := db.next_archive_id + 1 }
      (ArchiveResult.ok,
       { db1 with
         activity_logs := db1.activity_logs ++
           [ActivityLog.mk user_id (some sample_id) "archived" "Rock sample archived by admin"] })

/-- `admin_unarchive_rock` (`app.py:3714`): checks the sample and the
archive row exist, deletes the archive rows for the sample, logs
`'edited'`. -/
def admin_unarchive_rock (sample_id user_id : Nat) (db : DB) : ArchiveResult × DB :=
  match db.samples.find? (fun s => s.sample_id == sample_id) with
  | none => (ArchiveResult.notFound, db)
  | some _ =>
    match db.archives.find? (fun a => a.sample_id == sample_id) with
    | none => (ArchiveResult.conflict, db)
    | some _ =>
      let db1 := { db with
        archives := db.archives.filter (fun a => !(a.sample_id == sample_id)) }
      (ArchiveResult.ok,
       { db1 with
         activity_logs := db1.activity_logs ++
           [ActivityLog.mk user_id (some sample_id) "edited" "Rock sample unarchived by admin"] })

/-- `admin_toggle_user` (`app.py:2924`): reads the target's `is_active`
flag and writes its negation back.  There is **no** check that the target
differs from the acting admin.  (A missing target makes the Python route
raise before any write; that branch is the `notFound` arm.) -/
def admin_toggle_user (user_id : Nat) (db : DB) : UserResult × DB :=
  match db.users.find? (fun u => u.user_id == user_id) with
  | none => (UserResult.notFound, db)
  | some u =>
    let new_status := !u.is_active
    let users1 := db.users.map (fun v =>
      if v.user_id == user_id then { v with is_active := new_status } else v)
    (UserResult.ok, { db with users := users1 })

/-- `admin_delete_user` (`app.py:2942`): rejects `user_id ==
session['user_id']`, checks existence, then soft-disables
(`is_active = 0`) — never a hard delete. -/
def admin_delete_user (user_id actor_id : Nat) (db : DB) : UserResult × DB :=
  if user_id = actor_id then (UserResult.rejected, db)
  else
    match db.users.find? (fun u => u.user_id == user_id) with
    | none => (UserResult.notFound, db)
    | some _ =>
      let users1 := db.users.map (fun v =>
        if v.user_id == user_id then { v with is_active := false } else v)
      (UserResult.ok, { db with users := users1 })


/-! ### Query/Filter layer -/

/-- SQL `x LIKE '%pat%'` on a non-null column: substring match. -/
def sqlLike (haystack pattern : String) : Bool :=
  decide (List.IsInfix pattern.toList haystack.toList)

/-- SQL `x LIKE '%pat%'` on a nullable column: `NULL LIKE ...` is not
true. -/
def optLike (v : Option String) (pattern : String) : Bool :=
  match v with
  | none => false
  | some s => sqlLike s pattern

/-- SQL `DATE(created_at)`: calendar-day truncation of the numeric
timestamp. -/
def sqlDate (t : Nat) : Nat := t / 86400

/-- `ORDER BY created_at DESC` comparator. -/
def descCreated (a b : Sample) : Bool := b.created_at ≤ a.created_at

/-- `ORDER BY created_at ASC` comparator. -/
def ascCreated (a b : Sample) : Bool := a.created_at ≤ b.created_at

/-- Ordered insertion for the `ORDER BY` model. -/
def insertLe {α : Type} (le : α → α → Bool) (x : α) : List α → List α
  | [] => [x]
  | y :: ys => if le x y then x :: y :: ys else y :: insertLe le x ys

/-- Insertion sort: the model of SQL `ORDER BY`. -/
def sortLe {α : Type} (le : α → α → Bool) : List α → List α
  | [] => []
  | x :: xs => insertLe le x (sortLe le xs)

/-- The list is sorted for the comparator. -/
def SortedLe {α : Type} (le : α → α → Bool) (l : List α) : Prop :=
  l.Pairwise (fun a b => le a b = true)

/-- `rs.sample_id` has no row in `archives` (`LEFT JOIN archives a ...
WHERE a.sample_id IS NULL`). -/
def notArchived (db : DB) (s : Sample) : Bool :=
  db.archives.all (fun a => !(a.sample_id == s.sample_id))

/-- Filter parameters shared by the student-facing verified listing
(search / rock type / location / date range), `''` = absent, dates as day
numbers. -/
structure SampleFilters where
  search : String
  rock_type : String
  location : String
  date_from : Option Nat
  date_to : Option Nat
deriving DecidableEq

/-- The search condition of the student/verified listings (`app.py:693`,
`869`): substring on index, rock id, type, location, description. -/
def searchCond (q : String) (s : Sample) : Bool :=
  optLike s.rock_index q || optLike s.rock_id q || optLike s.rock_type q ||
  optLike s.location_name q || sqlLike s.description q

/-- The AND-combined optional filters of the verified listings
(`app.py:688-711`). -/
def verifiedFilters (f : SampleFilters) (s : Sample) : Bool :=
  (f.search == "" || searchCond f.search s) &&
  (f.rock_type == "" || s.rock_type == some f.rock_type) &&
  (f.location == "" || optLike s.location_name f.location) &&
  (match f.date_from with
   | none => true
   | some d => d ≤ sqlDate s.created_at) &&
  (match f.date_to with
   | none => true
   | some d => sqlDate s.created_at ≤ d)

/-- `get_filtered_verified_rocks` (`app.py:839-893`): all verified
samples matching the filters, newest first. -/
def get_filtered_verified_rocks (f : SampleFilters) (db : DB) : List Sample :=
  sortLe descCreated (db.samples.filter (fun s =>
    s.status == Status.verified && verifiedFilters f s))

/-- `student_view_rocks` (`app.py:662-717`): same verified catalog for
the student role, newest first. -/
def student_view_rocks (f : SampleFilters) (db : DB) : List Sample :=
  sortLe descCreated (db.samples.filter (fun s =>
    s.status == Status.verified && verifiedFilters f s))

/-- `student_pending_verifications` (`app.py:1615-1625`): the student's
own pending samples, newest first. -/
def student_pending_verifications (user_id : Nat) (db : DB) : List Sample :=
  sortLe descCreated (db.samples.filter (fun s =>
    s.user_id == user_id && s.status == Status.pending))

/-- `personnel_verification_panel` (`app.py:2037-2047`): all pending
samples, **oldest first** (FIFO review queue). -/
def personnel_verification_panel (db : DB) : List Sample :=
  sortLe ascCreated (db.samples.filter (fun s => s.status == Status.pending))

/-- The rock-type dropdown mapping of `get_filtered_personnel_rocks`
(`app.py:1008-1015`). -/
def personnelRockTypeMap (v : String) : Option String :=
  if v.toLower = "igneous" then some "Igneous Rock"
  else if v.toLower = "sedimentary" then some "Sedimentary Rock"
  else if v.toLower = "metamorphic" then some "Metamorphic Rock"
  else none

/-- The search condition of `get_filtered_personnel_rocks` and the admin
listings (`app.py:1000-1004`): substring on rock id, type, location,
description (submitter-name matching is outside the sample row and is
not modelled). -/
def staffSearchCond (q : String) (s : Sample) : Bool :=
  optLike s.rock_id q || optLike s.rock_type q ||
  optLike s.location_name q || sqlLike s.description q

/-- `get_filtered_personnel_rocks` (`app.py:971-1021`): verified samples
excluding archived, with search and mapped rock-type filter, newest
first. -/
def get_filtered_personnel_rocks (search_query rock_type_filter : String)
    (db : DB) : List Sample :=
  sortLe descCreated (db.samples.filter (fun s =>
    s.status == Status.verified && notArchived db s &&
    (search_query == "" || staffSearchCond search_query s) &&
    (match personnelRockTypeMap rock_type_filter with
     | none => true
     | some rt => s.rock_type == some rt)))

/-- `get_filtered_admin_rocks` (`app.py:1099-1151`): all samples
excluding archived, optional status / search / rock-type filters, newest
first. -/
def get_filtered_admin_rocks (search_query rock_type_filter status_filter : String)
    (db : DB) : List Sample :=
  sortLe descCreated (db.samples.filter (fun s =>
    notArchived db s &&
    (if status_filter.toLower = "verified" then s.status == Status.verified
     else if status_filter.toLower = "pending" then s.status == Status.pending
     else if status_filter.toLower = "rejected" then s.status == Status.rejected
     else true) &&
    (search_query == "" || staffSearchCond search_query s) &&
    (rock_type_filter == "" || s.rock_type == some rock_type_filter)))

/-- `admin_rock_list` (`app.py:2973-3018`): all samples excluding
archived, search and rock-type filters, newest first. -/
def admin_rock_list (search_query rock_type_filter : String) (db : DB) :
    List Sample :=
  sortLe descCreated (db.samples.filter (fun s =>
    notArchived db s &&
    (search_query == "" || staffSearchCond search_query s) &&
    (rock_type_filter == "" || s.rock_type == some rock_type_filter)))

/-! ### Well-formedness of the store

Standing invariants any store reachable through MySQL satisfies: row ids
are below the `AUTO_INCREMENT` counters, sample ids are unique, and log
rows reference existing (hence allocated) sample ids. -/

/-- Referential well-formedness of a store. -/
def WF (db : DB) : Prop :=
  (∀ s ∈ db.samples, s.sample_id < db.next_sample_id) ∧
  (db.samples.map (fun s => s.sample_id)).Nodup ∧
  (∀ l ∈ db.approval_logs, l.sample_id < db.next_sample_id) ∧
  (∀ l ∈ db.activity_logs, ∀ k ∈ l.sample_id, k < db.next_sample_id) ∧
  (∀ im ∈ db.images, im.sample_id < db.next_sample_id)

/-! ### Sortedness of the ORDER BY model -/

theorem mem_insertLe {α : Type} (le : α → α → Bool) (x : α) (l : List α) (z : α) :
    z ∈ insertLe le x l ↔ z = x ∨ z ∈ l := by
  induction l with
  | nil => simp [insertLe]
  | cons y ys ih =>
    by_cases h : le x y = true
    · simp [insertLe, h]
    · simp only [insertLe, h, if_neg, Bool.not_eq_true, List.mem_cons, ih]
      tauto

theorem sorted_insertLe {α : Type} {le : α → α → Bool}
    (htot : ∀ a b, le a b = true ∨ le b a = true)
    (htrans : ∀ a b c, le a b = true → le b c = true → le a c = true)
    (x : α) {l : List α} (hl : SortedLe le l) : SortedLe le (insertLe le x l) := by
  induction l with
  | nil => simp [insertLe, SortedLe]
  | cons y ys ih =>
    have hy : ∀ z ∈ ys, le y z = true := by
      intro z hz
      exact (List.pairwise_cons.mp hl).1 z hz
    have hys : SortedLe le ys := (List.pairwise_cons.mp hl).2
    by_cases h : le x y = true
    · simp only [insertLe, h, if_pos]
      refine List.pairwise_cons.mpr ⟨?_, hl⟩
      intro z hz
      rcases List.mem_cons.mp hz with hz | hz
      · exact hz ▸ h
      · exact htrans x y z h (hy z hz)
    · simp only [insertLe, h, if_neg, Bool.not_eq_true]
      refine List.pairwise_cons.mpr ⟨?_, ih hys⟩
      intro z hz
      rcases (mem_insertLe le x ys z).mp hz with hz | hz
      · subst hz
        rcases htot y z with hyz | hzy
        · exact hyz
        · exact absurd hzy h
      · exact hy z hz

theorem sorted_sortLe {α : Type} {le : α → α → Bool}
    (htot : ∀ a b, le a b = true ∨ le b a = true)
    (htrans : ∀ a b c, le a b = true → le b c = true → le a c = true)
    (l : List α) : SortedLe le (sortLe le l) := by
  induction l with
  | nil => simp [sortLe, SortedLe]
  | cons x xs ih => exact sorted_insertLe htot htrans x ih

theorem descCreated_total : ∀ a b : Sample,
    descCreated a b = true ∨ descCreated b a = true := by
  intro a b
  simp only [descCreated, decide_eq_true_eq]
  omega

theorem descCreated_trans : ∀ a b c : Sample, descCreated a b = true →
    descCreated b c = true → descCreated a c = true := by
  intro a b c
  simp only [descCreated, decide_eq_true_eq]
  omega

theorem ascCreated_total : ∀ a b : Sample,
    ascCreated a b = true ∨ ascCreated b a = true := by
  intro a b
  simp only [ascCreated, decide_eq_true_eq]
  omega

theorem ascCreated_trans : ∀ a b c : Sample, ascCreated a b = true →
    ascCreated b c = true → ascCreated a c = true := by
  intro a b c
  simp only [ascCreated, decide_eq_true_eq]
  omega

/-- C9: every role-scoped sample list is returned newest-first
(`ORDER BY created_at DESC`), except the personnel pending review queue,
which is oldest-first (`ORDER BY created_at ASC`). -/
theorem sample_lists_ordering (db : DB) (f : SampleFilters) (uid : Nat)
    (sq rt sf : String) :
    SortedLe descCreated (get_filtered_verified_rocks f db) ∧
    SortedLe descCreated (student_view_rocks f db) ∧
    SortedLe descCreated (student_pending_verifications uid db) ∧
    SortedLe descCreated (get_filtered_personnel_rocks sq rt db) ∧
    SortedLe descCreated (get_filtered_admin_rocks sq rt sf db) ∧
    SortedLe descCreated (admin_rock_list sq rt db) ∧
    SortedLe ascCreated (personnel_verification_panel db) :=
  ⟨sorted_sortLe descCreated_total descCreated_trans _,
   sorted_sortLe descCreated_total descCreated_trans _,
   sorted_sortLe descCreated_total descCreated_trans _,
   sorted_sortLe descCreated_total descCreated_trans _,
   sorted_sortLe descCreated_total descCreated_trans _,
   sorted_sortLe descCreated_total descCreated_trans _,
   sorted_sortLe ascCreated_total ascCreated_trans _⟩

/-! ### Helper lemmas -/

theorem handleUpload_samples (db : DB) (sid : Nat) (ty : String)
    (file : Option UploadFile) : (handleUpload db sid ty file).samples = db.samples := rfl

theorem handleUpload_approval_logs (db : DB) (sid : Nat) (ty : String)
    (file : Option UploadFile) :
    (handleUpload db sid ty file).approval_logs = db.approval_logs := rfl

theorem handleUpload_activity_logs (db : DB) (sid : Nat) (ty : String)
    (file : Option UploadFile) :
    (handleUpload db sid ty file).activity_logs = db.activity_logs := rfl

theorem handleUpload_archives (db : DB) (sid : Nat) (ty : String)
    (file : Option UploadFile) : (handleUpload db sid ty file).archives = db.archives := rfl

theorem handleUpload_users (db : DB) (sid : Nat) (ty : String)
    (file : Option UploadFile) : (handleUpload db sid ty file).users = db.users := rfl

theorem handleUpload_next_sample_id (db : DB) (sid : Nat) (ty : String)
    (file : Option UploadFile) :
    (handleUpload db sid ty file).next_sample_id = db.next_sample_id := rfl

/-- A filter whose predicate rejects every old row and accepts the one
appended row keeps exactly that row. -/
theorem filter_count_one_fresh {β : Type} (p : β → Bool) (old : List β) (row : β)
    (hold : ∀ l ∈ old, p l = false) (hrow : p row = true) :
    ((old ++ [row]).filter p).length = 1 := by
  rw [List.filter_append]
  have h1 : old.filter p = [] := by
    rw [List.filter_eq_nil_iff]
    intro a ha
    simp [hold a ha]
  rw [h1, List.filter_cons_of_pos hrow]
  simp

/-- `find?` lands on the appended row when no old row matches. -/
theorem find?_append_last {β : Type} (p : β → Bool) (old : List β) (row : β)
    (hold : ∀ l ∈ old, p l = false) (hrow : p row = true) :
    (old ++ [row]).find? p = some row := by
  rw [List.find?_append]
  have h1 : old.find? p = none := by
    rw [List.find?_eq_none]
    intro a ha
    simp [hold a ha]
  rw [h1]
  simp [List.find?, hrow]

/-- An `UPDATE ... WHERE sample_id = sid` touches nothing when every row
id is below `sid`. -/
theorem map_update_id (samples : List Sample) (sid : Nat) (upd : Sample → Sample)
    (hbelow : ∀ s ∈ samples, s.sample_id < sid) :
    samples.map (fun s => if s.sample_id == sid then upd s else s) = samples := by
  have h : ∀ s ∈ samples, (fun s => if s.sample_id == sid then upd s else s) s = id s := by
    intro s hs
    have : ¬(s.sample_id == sid) = true := by
      simp only [beq_iff_eq]
      exact Nat.ne_of_lt (hbelow s hs)
    simp [this]
  rw [List.map_congr_left h, List.map_id]

theorem log_activity_samples (db : DB) (uid : Nat) (ty descr : String)
    (sid : Option Nat) : (log_activity db uid ty descr sid).samples = db.samples := rfl

theorem log_activity_approval_logs (db : DB) (uid : Nat) (ty descr : String)
    (sid : Option Nat) :
    (log_activity db uid ty descr sid).approval_logs = db.approval_logs := rfl

theorem log_activity_activity_logs (db : DB) (uid : Nat) (ty descr : String)
    (sid : Option Nat) :
    (log_activity db uid ty descr sid).activity_logs =
      db.activity_logs ++ [ActivityLog.mk uid sid ty descr] := rfl

/-- On action `'approve'` the decide route reduces to its three writes. -/
theorem personnel_verify_rock_approve (sample_id user_id : Nat) (remarks : String)
    (now : Nat) (db : DB) :
    personnel_verify_rock sample_id user_id "approve" remarks now db =
      { db with
        samples := db.samples.map (fun s =>
          if s.sample_id == sample_id then decideWrite Status.verified user_id now s
          else s)
        approval_logs := db.approval_logs ++
          [ApprovalLog.mk user_id sample_id "approved" remarks]
        activity_logs := db.activity_logs ++
          [ActivityLog.mk user_id (some sample_id) "approved" "Rock sample approved"] } := rfl

/-- On action `'reject'` the decide route reduces to its three writes. -/
theorem personnel_verify_rock_reject (sample_id user_id : Nat) (remarks : String)
    (now : Nat) (db : DB) :
    personnel_verify_rock sample_id user_id "reject" remarks now db =
      { db with
        samples := db.samples.map (fun s =>
          if s.sample_id == sample_id then decideWrite Status.rejected user_id now s
          else s)
        approval_logs := db.approval_logs ++
          [ApprovalLog.mk user_id sample_id "rejected" remarks]
        activity_logs := db.activity_logs ++
          [ActivityLog.mk user_id (some sample_id) "rejected" "Rock sample rejected"] } := rfl

/-- A successful Submit pins down the result store componentwise. -/
theorem student_add_rock_ok (user_id : Nat) (form : RockForm) (files : Uploads)
    (now : Nat) (db : DB) (sid : Nat) (db1 : DB)
    (h : student_add_rock user_id form files now db = (SubmitResult.ok sid, db1)) :
    sid = db.next_sample_id ∧
    (∃ la lo, checkCoords form.latitude form.longitude = Except.ok (la, lo) ∧
      db1.samples = db.samples ++ [newPendingSample sid user_id form la lo now]) ∧
    db1.approval_logs = db.approval_logs ∧
    db1.activity_logs = db.activity_logs ++
      [ActivityLog.mk user_id (some sid) "submitted" "Submitted rock sample"] ∧
    db1.next_sample_id = db.next_sample_id + 1 := by
  unfold student_add_rock at h
  split at h
  · exact absurd (congrArg Prod.fst h) (by simp)
  · rename_i la lo hcc
    simp only [Prod.mk.injEq, SubmitResult.ok.injEq] at h
    obtain ⟨hsid, hdb1⟩ := h
    subst hsid
    subst hdb1
    refine ⟨rfl, ⟨la, lo, hcc, ?_⟩, ?_, ?_, ?_⟩
    · simp [log_activity_samples, handleUpload_samples]
    · simp [log_activity_approval_logs, handleUpload_approval_logs]
    · simp [log_activity_activity_logs, handleUpload_activity_logs]
    · simp [log_activity, handleUpload]

/-- C1: after Decide(approve) on a pending sample freshly created by
Submit, re-reading the sample yields status `'verified'` with
`verified_by` the deciding verifier, and exactly one `approval_logs` row
with action `'approved'` and exactly one `activity_logs` row with
activity_type `'approved'` exist for that sample. -/
theorem submit_then_approve_audit (db : DB) (hwf : WF db)
    (owner verifier now1 now2 : Nat) (form : RockForm) (files : Uploads)
    (remarks : String) (sid : Nat) (db1 : DB)
    (hsub : student_add_rock owner form files now1 db = (SubmitResult.ok sid, db1)) :
    (readSample (personnel_verify_rock sid verifier "approve" remarks now2 db1) sid).map
        (fun s => (s.status, s.verified_by)) = some (Status.verified, some verifier) ∧
    ((personnel_verify_rock sid verifier "approve" remarks now2 db1).approval_logs.filter
        (fun l => l.sample_id == sid && l.action == "approved")).length = 1 ∧
    ((personnel_verify_rock sid verifier "approve" remarks now2 db1).activity_logs.filter
        (fun l => l.sample_id == some sid && l.activity_type == "approved")).length = 1 := by
  obtain ⟨hw1, hw2, hw3, hw4, hw5⟩ := hwf
  obtain ⟨hsid, ⟨la, lo, hcc, hsamp⟩, happ, hact, hnext⟩ :=
    student_add_rock_ok _ _ _ _ _ _ _ hsub
  subst hsid
  rw [personnel_verify_rock_approve]
  refine ⟨?_, ?_, ?_⟩
  · show (((db1.samples.map _).find? _).map _) = _
    rw [hsamp, List.map_append]
    rw [map_update_id _ _ _ hw1]
    have hnew : (newPendingSample db.next_sample_id owner form la lo now1).sample_id
        == db.next_sample_id := by
      simp [newPendingSample]
    simp only [List.map_cons, List.map_nil, hnew, if_pos]
    rw [find?_append_last]
    · rfl
    · intro s hs
      simp only [beq_eq_false_iff_ne, ne_eq]
      exact Nat.ne_of_lt (hw1 s hs)
    · simp [decideWrite, newPendingSample]
  · show ((db1.approval_logs ++ _).filter _).length = 1
    rw [happ]
    apply filter_count_one_fresh
    · intro l hl
      have : l.sample_id ≠ db.next_sample_id := Nat.ne_of_lt (hw3 l hl)
      simp [this]
    · simp
  · show ((db1.activity_logs ++ _).filter _).length = 1
    rw [hact]
    apply filter_count_one_fresh
    · intro l hl
      rcases List.mem_append.mp hl with hl | hl
      · have hne : l.sample_id ≠ some db.next_sample_id := by
          intro he
          have hk : db.next_sample_id ∈ l.sample_id := by rw [he]; rfl
          exact absurd (hw4 l hl _ hk) (Nat.lt_irrefl _)
        have hfalse : (l.sample_id == some db.next_sample_id) = false :=
          beq_eq_false_iff_ne.mpr hne
        simp [hfalse]
      · have hsub1 : l = ActivityLog.mk owner (some db.next_sample_id) "submitted"
            "Submitted rock sample" := by simpa using hl
        subst hsub1
        simp
    · simp

/-- A concrete valid submission form (the spec scenario: `IG-01`,
latitude 9, longitude 125). -/
def demoForm : RockForm :=
  { rock_index := some "RI-1"
    rock_id := some "IG-01"
    rock_type := some "Igneous Rock"
    description := ""
    formation := ""
    location_name := some "Butuan"
    barangay := none
    province := none
    latitude := CoordField.value 9
    longitude := CoordField.value 125 }

/-- No files uploaded. -/
def noFiles : Uploads := { rock_specimen := none, outcrop_image := none }

/-- An empty store with all `AUTO_INCREMENT` counters at 1. -/
def emptyDB : DB :=
  { samples := []
    images := []
    archives := []
    activity_logs := []
    approval_logs := []
    users := []
    next_sample_id := 1
    next_image_id := 1
    next_archive_id := 1 }

/-- Witness for C1 at a concrete scenario: student 1 submits into the
empty store, personnel 2 approves sample 1. -/
theorem submit_then_approve_audit_witness :
    WF emptyDB ∧
    ((readSample (personnel_verify_rock 1 2 "approve" "ok" 8
        (student_add_rock 1 demoForm noFiles 7 emptyDB).2) 1).map
        (fun s => (s.status, s.verified_by)) = some (Status.verified, some 2) ∧
     ((personnel_verify_rock 1 2 "approve" "ok" 8
        (student_add_rock 1 demoForm noFiles 7 emptyDB).2).approval_logs.filter
        (fun l => l.sample_id == 1 && l.action == "approved")).length = 1 ∧
     ((personnel_verify_rock 1 2 "approve" "ok" 8
        (student_add_rock 1 demoForm noFiles 7 emptyDB).2).activity_logs.filter
        (fun l => l.sample_id == some 1 && l.activity_type == "approved")).length = 1) :=
  ⟨by simp [WF, emptyDB],
   submit_then_approve_audit emptyDB (by simp [WF, emptyDB]) 1 2 7 8 demoForm
     noFiles "ok" 1 (student_add_rock 1 demoForm noFiles 7 emptyDB).2 rfl⟩

/-- A sample that already carries a decision: rejected by verifier 2. -/
def decidedSample : Sample :=
  { sample_id := 1
    user_id := 5
    rock_index := none
    rock_id := some "IG-01"
    rock_type := some "Igneous Rock"
    description := ""
    formation := ""
    location_name := some "Butuan"
    barangay := none
    province := none
    latitude := 9
    longitude := 125
    status := Status.rejected
    verified_by := some 2
    created_at := 0
    updated_at := 0 }

/-- A store holding only the already-decided sample. -/
def decidedDB : DB :=
  { samples := [decidedSample]
    images := []
    archives := []
    activity_logs := []
    approval_logs := []
    users := []
    next_sample_id := 2
    next_image_id := 1
    next_archive_id := 1 }

/-- C3 counterexample: sample 1 is `'rejected'` (decided by verifier 2),
yet Decide(approve) by verifier 3 is not rejected — it overwrites the
status to `'verified'` and the verifier to 3. -/
theorem decide_on_decided_overwrites_cex :
    (readSample decidedDB 1).map (fun s => (s.status, s.verified_by)) =
      some (Status.rejected, some 2) ∧
    (readSample (personnel_verify_rock 1 3 "approve" "" 9 decidedDB) 1).map
        (fun s => (s.status, s.verified_by)) = some (Status.verified, some 3) :=
  ⟨rfl, rfl⟩

/-- C3 amended: `personnel_verify_rock` enforces no `'pending'`
precondition — an approve or reject is applied to the target sample
whatever its current status, overwriting any earlier decision. -/
theorem decide_unguarded (db : DB) (sid v now : Nat) (remarks : String) :
    (∀ s ∈ (personnel_verify_rock sid v "approve" remarks now db).samples,
      s.sample_id = sid → s.status = Status.verified ∧ s.verified_by = some v) ∧
    (∀ s ∈ (personnel_verify_rock sid v "reject" remarks now db).samples,
      s.sample_id = sid → s.status = Status.rejected ∧ s.verified_by = some v) := by
  constructor
  · rw [personnel_verify_rock_approve]
    intro s hs hid
    rcases List.mem_map.mp hs with ⟨t, ht, heq⟩
    by_cases h : t.sample_id == sid
    · rw [if_pos h] at heq
      exact ⟨by rw [← heq]; rfl, by rw [← heq]; rfl⟩
    · rw [if_neg h] at heq
      subst heq
      exact absurd (beq_iff_eq.mpr hid) h
  · rw [personnel_verify_rock_reject]
    intro s hs hid
    rcases List.mem_map.mp hs with ⟨t, ht, heq⟩
    by_cases h : t.sample_id == sid
    · rw [if_pos h] at heq
      exact ⟨by rw [← heq]; rfl, by rw [← heq]; rfl⟩
    · rw [if_neg h] at heq
      subst heq
      exact absurd (beq_iff_eq.mpr hid) h

/-- Witness for C3's amended theorem: the overwrite applies to the
concretely already-rejected sample. -/
theorem decide_unguarded_witness :
    (decideWrite Status.verified 3 9 decidedSample).status = Status.verified ∧
    (decideWrite Status.verified 3 9 decidedSample).verified_by = some 3 :=
  (decide_unguarded decidedDB 1 3 9 "").1
    (decideWrite Status.verified 3 9 decidedSample) (by decide) rfl

/-- The per-row verifier invariant: a decided status carries a
verifier. -/
def SampleOk (s : Sample) : Prop :=
  (s.status = Status.verified → s.verified_by ≠ none) ∧
  (s.status = Status.rejected → s.verified_by ≠ none)

/-- The storewide verifier invariant (spec §8, first property). -/
def VerifierInv (db : DB) : Prop := ∀ s ∈ db.samples, SampleOk s

theorem sampleOk_newPendingSample (sid uid : Nat) (form : RockForm)
    (la lo : Rat) (now : Nat) : SampleOk (newPendingSample sid uid form la lo now) := by
  simp [SampleOk, newPendingSample]

theorem sampleOk_newVerifiedSample (sid uid : Nat) (form : RockForm)
    (la lo : Rat) (now : Nat) : SampleOk (newVerifiedSample sid uid form la lo now) := by
  simp [SampleOk, newVerifiedSample]

theorem sampleOk_decideWrite (st : Status) (uid now : Nat) (s : Sample) :
    SampleOk (decideWrite st uid now s) := by
  simp [SampleOk, decideWrite]

theorem sampleOk_studentEditWrite {rock : Sample} (h : SampleOk rock)
    (form : RockForm) (la lo : Rat) (now : Nat) (s : Sample) :
    SampleOk (studentEditWrite form la lo now rock s) := by
  simpa [SampleOk, studentEditWrite] using h

theorem sampleOk_staffEditWrite {s : Sample} (h : SampleOk s)
    (form : EditForm) (la lo : Rat) (now : Nat) :
    SampleOk (staffEditWrite form la lo now s) := by
  simpa [SampleOk, staffEditWrite] using h

/-- An `UPDATE ... WHERE sample_id = sid` whose row function preserves
`SampleOk` keeps the storewide invariant. -/
theorem sampleOk_map_update {db : DB} (hinv : VerifierInv db) (sid : Nat)
    (upd : Sample → Sample) (hupd : ∀ s ∈ db.samples, SampleOk s → SampleOk (upd s)) :
    ∀ s ∈ db.samples.map (fun s => if s.sample_id == sid then upd s else s), SampleOk s := by
  intro s hs
  rcases List.mem_map.mp hs with ⟨t, ht, heq⟩
  by_cases h : t.sample_id == sid
  · rw [if_pos h] at heq
    subst heq
    exact hupd t ht (hinv t ht)
  · rw [if_neg h] at heq
    subst heq
    exact hinv t ht

/-- C2: every sample row written by any lifecycle operation satisfies the
verifier invariant — `'verified'` or `'rejected'` always carry a non-null
`verified_by` — and a sample freshly created by Submit reads back as
`'pending'` with a null verifier. -/
theorem verifier_invariant_preserved (db : DB) (hwf : WF db) (hinv : VerifierInv db) :
    (∀ owner form files now, VerifierInv (student_add_rock owner form files now db).2) ∧
    (∀ owner form files now sid db1,
       student_add_rock owner form files now db = (SubmitResult.ok sid, db1) →
       (readSample db1 sid).map (fun s => (s.status, s.verified_by)) =
         some (Status.pending, none)) ∧
    (∀ sid uid form files now,
       VerifierInv (student_edit_rock sid uid form files now db).2) ∧
    (∀ sid uid, VerifierInv (student_delete_rock sid uid db).2) ∧
    (∀ sid uid action remarks now,
       VerifierInv (personnel_verify_rock sid uid action remarks now db)) ∧
    (∀ uid form files now, VerifierInv (personnel_add_rock uid form files now db).2) ∧
    (∀ sid uid form files rm now,
       VerifierInv (personnel_edit_rock sid uid form files rm now db).2) ∧
    (∀ uid form files now, VerifierInv (admin_add_rock uid form files now db).2) ∧
    (∀ sid uid form files rm now,
       VerifierInv (admin_edit_rock sid uid form files rm now db).2) ∧
    (∀ sid uid reason, VerifierInv (personnel_archive_rock sid uid reason db)) ∧
    (∀ sid uid reason, VerifierInv (admin_archive_rock sid uid reason db).2) ∧
    (∀ sid uid, VerifierInv (admin_unarchive_rock sid uid db).2) ∧
    (∀ t, VerifierInv (admin_toggle_user t db).2) ∧
    (∀ t a, VerifierInv (admin_delete_user t a db).2) := by
  obtain ⟨hw1, hw2, hw3, hw4, hw5⟩ := hwf
  refine ⟨?_, ?_, ?_, ?_, ?_, ?_, ?_, ?_, ?_, ?_, ?_, ?_, ?_, ?_⟩
  · intro owner form files now
    unfold student_add_rock
    split
    · exact hinv
    · intro s hs
      rcases List.mem_append.mp hs with hs | hs
      · exact hinv s hs
      · rw [List.mem_singleton.mp hs]
        exact sampleOk_newPendingSample _ _ _ _ _ _
  · intro owner form files now sid db1 hsub
    obtain ⟨hsid, ⟨la, lo, hcc, hsamp⟩, _, _, _⟩ :=
      student_add_rock_ok _ _ _ _ _ _ _ hsub
    subst hsid
    unfold readSample
    rw [hsamp, find?_append_last]
    · rfl
    · intro s hs
      simp only [beq_eq_false_iff_ne, ne_eq]
      exact Nat.ne_of_lt (hw1 s hs)
    · simp [newPendingSample]
  · intro sid uid form files now
    unfold student_edit_rock
    split
    · exact hinv
    · rename_i rock hrock
      split
      · exact hinv
      · intro s hs
        refine sampleOk_map_update hinv sid _ ?_ s hs
      
        intro t ht _
        exact sampleOk_studentEditWrite
          (hinv rock (List.mem_of_find?_eq_some hrock)) _ _ _ _ _
  · intro sid uid
    unfold student_delete_rock
    split
    · exact hinv
    · intro s hs
      exact hinv s (List.mem_of_mem_filter hs)
  · intro sid uid action remarks now
    unfold personnel_verify_rock
    split
    · intro s hs
      exact sampleOk_map_update hinv sid _ (fun t _ _ => sampleOk_decideWrite _ _ _ _) s hs
    · split
      · intro s hs
        exact sampleOk_map_update hinv sid _ (fun t _ _ => sampleOk_decideWrite _ _ _ _) s hs
      · exact hinv
  · intro uid form files now
    unfold personnel_add_rock
    split
    · exact hinv
    · intro s hs
      rcases List.mem_append.mp hs with hs | hs
      · exact hinv s hs
      · rw [List.mem_singleton.mp hs]
        exact sampleOk_newVerifiedSample _ _ _ _ _ _
  · intro sid uid form files rm now
    unfold personnel_edit_rock
    split
    · exact hinv
    · split
      · exact hinv
      · intro s hs
        exact sampleOk_map_update hinv sid _
          (fun t _ h => sampleOk_staffEditWrite h _ _ _ _) s hs
  · intro uid form files now
    unfold admin_add_rock
    split
    · exact hinv
    · intro s hs
      rcases List.mem_append.mp hs with hs | hs
      · exact hinv s hs
      · rw [List.mem_singleton.mp hs]
        exact sampleOk_newVerifiedSample _ _ _ _ _ _
  · intro sid uid form files rm now
    unfold admin_edit_rock
    split
    · exact hinv
    · split
      · exact hinv
      · intro s hs
        exact sampleOk_map_update hinv sid _
          (fun t _ h => sampleOk_staffEditWrite h _ _ _ _) s hs
  · intro sid uid reason
    exact hinv
  · intro sid uid reason
    unfold admin_archive_rock
    split
    · exact hinv
    · split
      · exact hinv
      · exact hinv
  · intro sid uid
    unfold admin_unarchive_rock
    split
    · exact hinv
    · split
      · exact hinv
      · exact hinv
  · intro t
    unfold admin_toggle_user
    split
    · exact hinv
    · exact hinv
  · intro t a
    unfold admin_delete_user
    split
    · exact hinv
    · split
      · exact hinv
      · exact hinv

/-- Witness for C2 at the empty store: the invariant holds after an
unconditional approve. -/
theorem verifier_invariant_preserved_witness :
    WF emptyDB ∧ VerifierInv emptyDB ∧
    VerifierInv (personnel_verify_rock 1 2 "approve" "ok" 8 emptyDB) :=
  ⟨by simp [WF, emptyDB], by simp [VerifierInv, emptyDB],
   (verifier_invariant_preserved emptyDB (by simp [WF, emptyDB])
      (by simp [VerifierInv, emptyDB])).2.2.2.2.1 1 2 "approve" "ok" 8⟩

/-- Filtering first by the negation of `p` leaves nothing for `p`. -/
theorem filter_not_self {β : Type} (p : β → Bool) (l : List β) :
    (l.filter (fun a => !(p a))).filter p = [] := by
  rw [List.filter_eq_nil_iff]
  intro a ha
  have h := List.of_mem_filter ha
  simpa using h

/-- Removing rows that `q` cannot select leaves `q`'s selection
unchanged. -/
theorem filter_clear_other {β : Type} (p q : β → Bool) (l : List β)
    (himp : ∀ a, q a = true → p a = false) :
    (l.filter (fun a => !(p a))).filter q = l.filter q := by
  induction l with
  | nil => rfl
  | cons x xs ih =>
    by_cases hp : p x = true
    · have hq : q x = false := by
        cases hqx : q x
        · rfl
        · rw [himp x hqx] at hp
          exact absurd hp (by simp)
      simp [List.filter_cons, hp, hq, ih]
    · simp only [Bool.not_eq_true] at hp
      by_cases hq : q x = true <;> simp [List.filter_cons, hp, hq, ih]

/-- A pre-filter can only shrink a selection. -/
theorem length_filter_filter_le {β : Type} (p q : β → Bool) (l : List β) :
    ((l.filter q).filter p).length ≤ (l.filter p).length := by
  induction l with
  | nil => simp
  | cons x xs ih =>
    by_cases hq : q x = true
    · rw [List.filter_cons_of_pos hq]
      by_cases hp : p x = true
      · rw [List.filter_cons_of_pos hp, List.filter_cons_of_pos hp]
        simpa using ih
      · rw [List.filter_cons_of_neg hp, List.filter_cons_of_neg hp]
        exact ih
    · rw [List.filter_cons_of_neg hq]
      by_cases hp : p x = true
      · rw [List.filter_cons_of_pos hp]
        exact Nat.le_trans ih (by simp)
      · rw [List.filter_cons_of_neg hp]
        exact ih

/-- The slot update leaves at most one image of its own type when none
was selected before. -/
theorem uploadImages_self_type_le (imgs : List Image) (nii sid : Nat) (ty : String)
    (file : Option UploadFile)
    (h0 : imgs.filter (fun im => im.sample_id == sid && im.image_type == ty) = []) :
    ((uploadImages imgs nii sid ty file).1.filter
        (fun im => im.sample_id == sid && im.image_type == ty)).length ≤ 1 := by
  unfold uploadImages
  have hcleared : ((imgs.filter (fun im =>
      !(im.sample_id == sid && im.image_type == ty))).filter
      (fun im => im.sample_id == sid && im.image_type == ty)) = [] :=
    filter_not_self _ imgs
  cases file with
  | none => simp [h0]
  | some f =>
    by_cases hf : f.filename = ""
    · simp [hf, h0]
    · by_cases hc : f.content_size = 0
      · simp only [if_neg hf, if_pos hc, hcleared, List.length_nil]
        omega
      · simp only [if_neg hf, if_neg hc, List.filter_append, hcleared, List.nil_append]
        simp [List.filter_cons]

/-- The slot update does not touch images of a different type. -/
theorem uploadImages_other_type (imgs : List Image) (nii sid : Nat) (ty ty2 : String)
    (file : Option UploadFile) (hne : ty2 ≠ ty) :
    (uploadImages imgs nii sid ty file).1.filter
        (fun im => im.sample_id == sid && im.image_type == ty2) =
      imgs.filter (fun im => im.sample_id == sid && im.image_type == ty2) := by
  unfold uploadImages
  have hclear : ((imgs.filter (fun im =>
      !(im.sample_id == sid && im.image_type == ty))).filter
      (fun im => im.sample_id == sid && im.image_type == ty2)) =
      imgs.filter (fun im => im.sample_id == sid && im.image_type == ty2) := by
    apply filter_clear_other
    intro a ha
    have hx : (a.sample_id == sid) = true ∧ (a.image_type == ty2) = true := by
      simpa using ha
    have h2 : a.image_type = ty2 := beq_iff_eq.mp hx.2
    have h3 : (a.image_type == ty) = false := by
      rw [h2]
      exact beq_eq_false_iff_ne.mpr hne
    simp [h3]
  cases file with
  | none => rfl
  | some f =>
    by_cases hf : f.filename = ""
    · simp [hf]
    · by_cases hc : f.content_size = 0
      · simp only [if_neg hf, if_pos hc]
        exact hclear
      · have hrow : ((Image.mk nii sid ty f.filename f.content_size).sample_id == sid &&
            (Image.mk nii sid ty f.filename f.content_size).image_type == ty2) = false := by
          have : ((Image.mk nii sid ty f.filename f.content_size).image_type == ty2) = false :=
            beq_eq_false_iff_ne.mpr (Ne.symm hne)
          simp [this]
        simp only [if_neg hf, if_neg hc, List.filter_append, hclear]
        simp [List.filter_cons, hrow]
        exact Ne.symm hne

/-- The slot update adds at most one image for the sample overall. -/
theorem uploadImages_sid_le (imgs : List Image) (nii sid : Nat) (ty : String)
    (file : Option UploadFile) :
    ((uploadImages imgs nii sid ty file).1.filter
        (fun im => im.sample_id == sid)).length ≤
      (imgs.filter (fun im => im.sample_id == sid)).length + 1 := by
  unfold uploadImages
  cases file with
  | none => simp
  | some f =>
    by_cases hf : f.filename = ""
    · simp [hf]
    · by_cases hc : f.content_size = 0
      · simp only [if_neg hf, if_pos hc]
        have := length_filter_filter_le (fun im => im.sample_id == sid)
          (fun im => !(im.sample_id == sid && im.image_type == ty)) imgs
        omega
      · simp only [if_neg hf, if_neg hc, List.filter_append]
        have := length_filter_filter_le (fun im => im.sample_id == sid)
          (fun im => !(im.sample_id == sid && im.image_type == ty)) imgs
        rw [List.length_append]
        have hone : (([Image.mk nii sid ty f.filename f.content_size]).filter
            (fun im => im.sample_id == sid)).length ≤ 1 := by
          simp [List.filter_cons]
        omega

/-- A successful Submit pins down the resulting `images` table. -/
theorem student_add_rock_ok_images (user_id : Nat) (form : RockForm)
    (files : Uploads) (now : Nat) (db : DB) (sid : Nat) (db1 : DB)
    (h : student_add_rock user_id form files now db = (SubmitResult.ok sid, db1)) :
    db1.images =
      (uploadImages
        (uploadImages db.images db.next_image_id sid "rock_specimen"
          files.rock_specimen).1
        (uploadImages db.images db.next_image_id sid "rock_specimen"
          files.rock_specimen).2
        sid "outcrop" files.outcrop_image).1 := by
  unfold student_add_rock at h
  split at h
  · exact absurd (congrArg Prod.fst h) (by simp)
  · simp only [Prod.mk.injEq, SubmitResult.ok.injEq] at h
    obtain ⟨hsid, hdb1⟩ := h
    subst hsid
    subst hdb1
    rfl

/-- C4: Submit creates exactly one sample row — `'pending'`, owned by the
caller, verifier null — at most one image per type and at most two in
total for the new sample, and exactly one `activity_logs` row (type
`'submitted'`) referencing it. -/
theorem submit_effects (db : DB) (hwf : WF db) (owner now : Nat)
    (form : RockForm) (files : Uploads) (sid : Nat) (db1 : DB)
    (hsub : student_add_rock owner form files now db = (SubmitResult.ok sid, db1)) :
    db1.samples.length = db.samples.length + 1 ∧
    (readSample db1 sid).map (fun s => (s.user_id, s.status, s.verified_by)) =
      some (owner, Status.pending, none) ∧
    (db1.images.filter (fun im =>
      im.sample_id == sid && im.image_type == "rock_specimen")).length ≤ 1 ∧
    (db1.images.filter (fun im =>
      im.sample_id == sid && im.image_type == "outcrop")).length ≤ 1 ∧
    (db1.images.filter (fun im => im.sample_id == sid)).length ≤ 2 ∧
    (db1.activity_logs.filter (fun l => l.sample_id == some sid)).length = 1 ∧
    (db1.activity_logs.filter (fun l =>
      l.sample_id == some sid && l.activity_type == "submitted")).length = 1 := by
  obtain ⟨hw1, hw2, hw3, hw4, hw5⟩ := hwf
  obtain ⟨hsid, ⟨la, lo, hcc, hsamp⟩, happ, hact, hnext⟩ :=
    student_add_rock_ok _ _ _ _ _ _ _ hsub
  have himg := student_add_rock_ok_images _ _ _ _ _ _ _ hsub
  subst hsid
  have hfresh0 : ∀ (f2 : Image → Bool),
      db.images.filter (fun im => im.sample_id == db.next_sample_id && f2 im) = [] := by
    intro f2
    rw [List.filter_eq_nil_iff]
    intro im him
    have hne : im.sample_id ≠ db.next_sample_id := Nat.ne_of_lt (hw5 im him)
    simp [beq_eq_false_iff_ne.mpr hne]
  have hfresh1 : db.images.filter (fun im => im.sample_id == db.next_sample_id) = [] := by
    rw [List.filter_eq_nil_iff]
    intro im him
    have hne : im.sample_id ≠ db.next_sample_id := Nat.ne_of_lt (hw5 im him)
    simp [beq_eq_false_iff_ne.mpr hne]
  refine ⟨?_, ?_, ?_, ?_, ?_, ?_, ?_⟩
  · rw [hsamp]
    simp
  · unfold readSample
    rw [hsamp, find?_append_last]
    · rfl
    · intro s hs
      simp only [beq_eq_false_iff_ne, ne_eq]
      exact Nat.ne_of_lt (hw1 s hs)
    · simp [newPendingSample]
  · rw [himg]
    rw [uploadImages_other_type]
    · apply uploadImages_self_type_le
      exact hfresh0 (fun im => im.image_type == "rock_specimen")
    · intro hcontra
      exact absurd hcontra (by decide)
  · rw [himg]
    apply uploadImages_self_type_le
    rw [uploadImages_other_type]
    · exact hfresh0 (fun im => im.image_type == "outcrop")
    · intro hcontra
      exact absurd hcontra (by decide)
  · rw [himg]
    have h1 := uploadImages_sid_le db.images db.next_image_id db.next_sample_id
      "rock_specimen" files.rock_specimen
    have h2 := uploadImages_sid_le
      (uploadImages db.images db.next_image_id db.next_sample_id "rock_specimen"
        files.rock_specimen).1
      (uploadImages db.images db.next_image_id db.next_sample_id "rock_specimen"
        files.rock_specimen).2
      db.next_sample_id "outcrop" files.outcrop_image
    rw [hfresh1] at h1
    simp only [List.length_nil] at h1
    omega
  · rw [hact]
    apply filter_count_one_fresh
    · intro l hl
      have hne : l.sample_id ≠ some db.next_sample_id := by
        intro he
        have hk : db.next_sample_id ∈ l.sample_id := by rw [he]; rfl
        exact absurd (hw4 l hl _ hk) (Nat.lt_irrefl _)
      simp [beq_eq_false_iff_ne.mpr hne]
    · simp
  · rw [hact]
    apply filter_count_one_fresh
    · intro l hl
      have hne : l.sample_id ≠ some db.next_sample_id := by
        intro he
        have hk : db.next_sample_id ∈ l.sample_id := by rw [he]; rfl
        exact absurd (hw4 l hl _ hk) (Nat.lt_irrefl _)
      simp [beq_eq_false_iff_ne.mpr hne]
    · simp

/-- Witness for C4: a submission with both image slots filled into the
empty store. -/
theorem submit_effects_witness :
    WF emptyDB ∧
    ((student_add_rock 1 demoForm
        (Uploads.mk (some (UploadFile.mk "rock.png" 4))
          (some (UploadFile.mk "outcrop.png" 6))) 7 emptyDB).2.samples.length =
      emptyDB.samples.length + 1 ∧
     (readSample (student_add_rock 1 demoForm
        (Uploads.mk (some (UploadFile.mk "rock.png" 4))
          (some (UploadFile.mk "outcrop.png" 6))) 7 emptyDB).2 1).map
        (fun s => (s.user_id, s.status, s.verified_by)) =
        some (1, Status.pending, none) ∧
     ((student_add_rock 1 demoForm
        (Uploads.mk (some (UploadFile.mk "rock.png" 4))
          (some (UploadFile.mk "outcrop.png" 6))) 7 emptyDB).2.images.filter (fun im =>
        im.sample_id == 1 && im.image_type == "rock_specimen")).length ≤ 1 ∧
     ((student_add_rock 1 demoForm
        (Uploads.mk (some (UploadFile.mk "rock.png" 4))
          (some (UploadFile.mk "outcrop.png" 6))) 7 emptyDB).2.images.filter (fun im =>
        im.sample_id == 1 && im.image_type == "outcrop")).length ≤ 1 ∧
     ((student_add_rock 1 demoForm
        (Uploads.mk (some (UploadFile.mk "rock.png" 4))
          (some (UploadFile.mk "outcrop.png" 6))) 7 emptyDB).2.images.filter (fun im =>
        im.sample_id == 1)).length ≤ 2 ∧
     ((student_add_rock 1 demoForm
        (Uploads.mk (some (UploadFile.mk "rock.png" 4))
          (some (UploadFile.mk "outcrop.png" 6))) 7 emptyDB).2.activity_logs.filter
        (fun l => l.sample_id == some 1)).length = 1 ∧
     ((student_add_rock 1 demoForm
        (Uploads.mk (some (UploadFile.mk "rock.png" 4))
          (some (UploadFile.mk "outcrop.png" 6))) 7 emptyDB).2.activity_logs.filter
        (fun l => l.sample_id == some 1 && l.activity_type == "submitted")).length = 1) :=
  ⟨by simp [WF, emptyDB],
   submit_effects emptyDB (by simp [WF, emptyDB]) 1 7 demoForm
     (Uploads.mk (some (UploadFile.mk "rock.png" 4))
       (some (UploadFile.mk "outcrop.png" 6))) 1
     (student_add_rock 1 demoForm
       (Uploads.mk (some (UploadFile.mk "rock.png" 4))
         (some (UploadFile.mk "outcrop.png" 6))) 7 emptyDB).2 rfl⟩

/-- A submission missing every "required" text field (rock id, rock type,
location), with valid coordinates. -/
def missingFieldsForm : RockForm :=
  { rock_index := none
    rock_id := none
    rock_type := none
    description := ""
    formation := ""
    location_name := none
    barangay := none
    province := none
    latitude := CoordField.value 9
    longitude := CoordField.value 125 }

/-- A submission with an out-of-range latitude. -/
def badLatForm : RockForm :=
  { rock_index := none
    rock_id := some "IG-01"
    rock_type := some "Igneous Rock"
    description := ""
    formation := ""
    location_name := some "Butuan"
    barangay := none
    province := none
    latitude := CoordField.value 95
    longitude := CoordField.value 125 }

/-- C5 counterexample: rock id, rock type and location are all missing,
yet Submit does not fail with a ValidationError — it inserts the sample
(state is mutated, rock_id stored as NULL). -/
theorem submit_missing_fields_not_rejected_cex :
    (student_add_rock 7 missingFieldsForm noFiles 3 emptyDB).1 = SubmitResult.ok 1 ∧
    (student_add_rock 7 missingFieldsForm noFiles 3 emptyDB).2.samples.length = 1 ∧
    (readSample (student_add_rock 7 missingFieldsForm noFiles 3 emptyDB).2 1).map
      (fun s => s.rock_id) = some none :=
  ⟨rfl, rfl, rfl⟩

/-- C5 amended: Submit rejects (with no state change) exactly the
coordinate failures — missing or non-numeric latitude/longitude, latitude
outside [-90, 90], longitude outside [-180, 180]; the rock id, rock type
and location fields are not validated, and with acceptable coordinates
the submission always succeeds. -/
theorem submit_validation (owner now : Nat) (form : RockForm) (files : Uploads)
    (db : DB) :
    (∀ m, checkCoords form.latitude form.longitude = Except.error m →
       student_add_rock owner form files now db = (SubmitResult.validationError m, db)) ∧
    (form.latitude = CoordField.missing ∨ form.longitude = CoordField.missing →
       ∃ m, student_add_rock owner form files now db =
         (SubmitResult.validationError m, db)) ∧
    (form.latitude = CoordField.invalid ∨ form.longitude = CoordField.invalid →
       ∃ m, student_add_rock owner form files now db =
         (SubmitResult.validationError m, db)) ∧
    (∀ la, form.latitude = CoordField.value la → (la < -90 ∨ la > 90) →
       ∃ m, student_add_rock owner form files now db =
         (SubmitResult.validationError m, db)) ∧
    (∀ la lo, form.latitude = CoordField.value la →
       form.longitude = CoordField.value lo →
       -90 ≤ la → la ≤ 90 → (lo < -180 ∨ lo > 180) →
       ∃ m, student_add_rock owner form files now db =
         (SubmitResult.validationError m, db)) ∧
    (∀ la lo, form.latitude = CoordField.value la →
       form.longitude = CoordField.value lo →
       -90 ≤ la → la ≤ 90 → -180 ≤ lo → lo ≤ 180 →
       (student_add_rock owner form files now db).1 =
         SubmitResult.ok db.next_sample_id) := by
  have herr : ∀ m, checkCoords form.latitude form.longitude = Except.error m →
      student_add_rock owner form files now db = (SubmitResult.validationError m, db) := by
    intro m hm
    unfold student_add_rock
    rw [hm]
  refine ⟨herr, ?_, ?_, ?_, ?_, ?_⟩
  · intro h
    rcases h with h | h
    · cases hlo : form.longitude <;>
        exact ⟨_, herr _ (by rw [h, hlo]; exact rfl)⟩
    · cases hla : form.latitude <;>
        exact ⟨_, herr _ (by rw [hla, h]; exact rfl)⟩
  · intro h
    rcases h with h | h
    · cases hlo : form.longitude <;>
        exact ⟨_, herr _ (by rw [h, hlo]; exact rfl)⟩
    · cases hla : form.latitude <;>
        exact ⟨_, herr _ (by rw [hla, h]; exact rfl)⟩
  · intro la hla hrange
    cases hlo : form.longitude with
    | missing => exact ⟨_, herr _ (by rw [hla, hlo]; exact rfl)⟩
    | invalid => exact ⟨_, herr _ (by rw [hla, hlo]; exact rfl)⟩
    | value lo =>
      refine ⟨"Latitude must be between -90 and 90 degrees.", herr _ ?_⟩
      rw [hla, hlo]
      show (if la < -90 ∨ la > 90 then _ else _) = _
      rw [if_pos hrange]
  · intro la lo hla hlo h1 h2 hrange
    have hnla : ¬(la < -90 ∨ la > 90) :=
      not_or.mpr ⟨not_lt.mpr h1, not_lt.mpr h2⟩
    refine ⟨"Longitude must be between -180 and 180 degrees.", herr _ ?_⟩
    rw [hla, hlo]
    show (if la < -90 ∨ la > 90 then _ else if lo < -180 ∨ lo > 180 then _ else _) = _
    rw [if_neg hnla, if_pos hrange]
  · intro la lo hla hlo h1 h2 h3 h4
    have hnla : ¬(la < -90 ∨ la > 90) :=
      not_or.mpr ⟨not_lt.mpr h1, not_lt.mpr h2⟩
    have hnlo : ¬(lo < -180 ∨ lo > 180) :=
      not_or.mpr ⟨not_lt.mpr h3, not_lt.mpr h4⟩
    have hok : checkCoords form.latitude form.longitude = Except.ok (la, lo) := by
      rw [hla, hlo]
      show (if la < -90 ∨ la > 90 then _ else if lo < -180 ∨ lo > 180 then _ else _) = _
      rw [if_neg hnla, if_neg hnlo]
    unfold student_add_rock
    rw [hok]

/-- Witness for C5's amended theorem: the valid scenario form passes and
the latitude-95 form is rejected without touching the store. -/
theorem submit_validation_witness :
    (student_add_rock 1 demoForm noFiles 7 emptyDB).1 =
      SubmitResult.ok emptyDB.next_sample_id ∧
    student_add_rock 1 badLatForm noFiles 7 emptyDB =
      (SubmitResult.validationError
        "Latitude must be between -90 and 90 degrees.", emptyDB) :=
  ⟨(submit_validation 1 7 demoForm noFiles emptyDB).2.2.2.2.2 9 125 rfl rfl
      (by norm_num) (by norm_num) (by norm_num) (by norm_num),
   (submit_validation 1 7 badLatForm noFiles emptyDB).1 _ rfl⟩

/-- A verified sample owned by student 5. -/
def ownedVerifiedSample : Sample :=
  { sample_id := 1
    user_id := 5
    rock_index := none
    rock_id := some "IG-01"
    rock_type := some "Igneous Rock"
    description := ""
    formation := ""
    location_name := some "Butuan"
    barangay := none
    province := none
    latitude := 9
    longitude := 125
    status := Status.verified
    verified_by := some 2
    created_at := 0
    updated_at := 0 }

/-- A store holding only the owned verified sample. -/
def ownedVerifiedDB : DB :=
  { samples := [ownedVerifiedSample]
    images := []
    archives := []
    activity_logs := []
    approval_logs := []
    users := []
    next_sample_id := 2
    next_image_id := 1
    next_archive_id := 1 }

/-- The scenario form with the rock type changed. -/
def retypeForm : RockForm := { demoForm with rock_type := some "Metamorphic Rock" }

/-- C6 counterexample: the owning student edits their sample whose status
is `'verified'` — the claim says only `'pending'` samples are editable —
and the edit is accepted and changes the rock type. -/
theorem student_edit_verified_accepted_cex :
    ownedVerifiedSample.status = Status.verified ∧
    (student_edit_rock 1 5 retypeForm noFiles 9 ownedVerifiedDB).1 = EditResult.ok ∧
    (readSample (student_edit_rock 1 5 retypeForm noFiles 9 ownedVerifiedDB).2 1).map
      (fun s => s.rock_type) = some (some "Metamorphic Rock") :=
  ⟨rfl, rfl, rfl⟩

/-- C6 amended: a student may delete a sample only if they own it and it
is `'pending'`; a student may edit a sample they own while it is
`'pending'` **or** `'verified'`.  When no sample passes the respective
pre-check, the operation is rejected and the store is unchanged. -/
theorem student_edit_delete_guard (sid uid now : Nat) (form : RockForm)
    (files : Uploads) (db : DB) :
    ((∀ s ∈ db.samples,
        ¬(s.sample_id = sid ∧ s.user_id = uid ∧ s.status = Status.pending)) →
       student_delete_rock sid uid db = (DeleteResult.notFound, db)) ∧
    ((∀ s ∈ db.samples, ¬(s.sample_id = sid ∧ s.user_id = uid ∧
        (s.status = Status.pending ∨ s.status = Status.verified))) →
       student_edit_rock sid uid form files now db = (EditResult.notFound, db)) ∧
    ((∃ s ∈ db.samples, s.sample_id = sid ∧ s.user_id = uid ∧
        (s.status = Status.pending ∨ s.status = Status.verified)) →
       (student_edit_rock sid uid form files now db).1 ≠ EditResult.notFound) := by
  refine ⟨?_, ?_, ?_⟩
  · intro h
    have hnone : db.samples.find? (fun s =>
        s.sample_id == sid && s.user_id == uid && s.status == Status.pending) = none := by
      rw [List.find?_eq_none]
      intro s hs hb
      simp only [Bool.and_eq_true_iff, beq_iff_eq] at hb
      exact h s hs ⟨hb.1.1, hb.1.2, hb.2⟩
    unfold student_delete_rock
    rw [hnone]
  · intro h
    have hnone : db.samples.find? (fun s =>
        s.sample_id == sid && s.user_id == uid &&
        (s.status == Status.pending || s.status == Status.verified)) = none := by
      rw [List.find?_eq_none]
      intro s hs hb
      simp only [Bool.and_eq_true_iff, Bool.or_eq_true_iff, beq_iff_eq] at hb
      exact h s hs ⟨hb.1.1, hb.1.2, hb.2⟩
    unfold student_edit_rock
    rw [hnone]
  · intro h
    rcases h with ⟨s, hs, h1, h2, h3⟩
    have hsome : ∃ t, db.samples.find? (fun s =>
        s.sample_id == sid && s.user_id == uid &&
        (s.status == Status.pending || s.status == Status.verified)) = some t := by
      rcases hfind : db.samples.find? (fun s =>
          s.sample_id == sid && s.user_id == uid &&
          (s.status == Status.pending || s.status == Status.verified)) with _ | t
      · rw [List.find?_eq_none] at hfind
        refine absurd ?_ (hfind s hs)
        simp only [Bool.and_eq_true_iff, Bool.or_eq_true_iff, beq_iff_eq]
        exact ⟨⟨h1, h2⟩, by rcases h3 with h3 | h3 <;> simp [h3]⟩
      · exact ⟨t, hfind⟩
    rcases hsome with ⟨t, ht⟩
    unfold student_edit_rock
    rw [ht]
    rcases hcc : checkCoords form.latitude form.longitude with m | la_lo
    · simp
    · simp

/-- Witness for C6's amended theorem: deleting the verified sample is
rejected, and the edit pre-check passes for it. -/
theorem student_edit_delete_guard_witness :
    (∀ s ∈ ownedVerifiedDB.samples,
        ¬(s.sample_id = 1 ∧ s.user_id = 5 ∧ s.status = Status.pending)) ∧
    student_delete_rock 1 5 ownedVerifiedDB = (DeleteResult.notFound, ownedVerifiedDB) :=
  ⟨by decide,
   (student_edit_delete_guard 1 5 9 retypeForm noFiles ownedVerifiedDB).1 (by decide)⟩

/-- A store where sample 1 already has an archive row. -/
def archivedDB : DB :=
  { samples := [ownedVerifiedSample]
    images := []
    archives := [Archive.mk 1 1 2 "cleanup" "archived"]
    activity_logs := []
    approval_logs := []
    users := []
    next_sample_id := 2
    next_image_id := 1
    next_archive_id := 2 }

/-- C7 counterexample: archiving the already-archived sample 1 through
the personnel path returns no conflict and inserts a second archive row
for the same sample. -/
theorem personnel_double_archive_cex :
    (archivedDB.archives.filter (fun a => a.sample_id == 1)).length = 1 ∧
    ((personnel_archive_rock 1 3 "again" archivedDB).archives.filter
      (fun a => a.sample_id == 1)).length = 2 :=
  ⟨rfl, rfl⟩

/-- C7 amended: only the admin path enforces the one-archive-row
invariant — admin Archive on an existing, already-archived sample returns
a conflict and inserts nothing; the personnel path performs no check and
always inserts one more archive row. -/
theorem archive_guard (sid uid : Nat) (reason : String) (db : DB) :
    ((∃ s ∈ db.samples, s.sample_id = sid) →
     (∃ a ∈ db.archives, a.sample_id = sid) →
       admin_archive_rock sid uid reason db = (ArchiveResult.conflict, db)) ∧
    (personnel_archive_rock sid uid reason db).archives.length =
      db.archives.length + 1 := by
  constructor
  · intro hs ha
    obtain ⟨s, hsmem, hsid⟩ := hs
    obtain ⟨a, hamem, haid⟩ := ha
    have h1 : ∃ t, db.samples.find? (fun s => s.sample_id == sid) = some t := by
      rcases hf : db.samples.find? (fun s => s.sample_id == sid) with _ | t
      · rw [List.find?_eq_none] at hf
        exact absurd (by simp [hsid]) (hf s hsmem)
      · exact ⟨t, hf⟩
    have h2 : ∃ u, db.archives.find? (fun a => a.sample_id == sid) = some u := by
      rcases hf : db.archives.find? (fun a => a.sample_id == sid) with _ | u
      · rw [List.find?_eq_none] at hf
        exact absurd (by simp [haid]) (hf a hamem)
      · exact ⟨u, hf⟩
    obtain ⟨t, ht⟩ := h1
    obtain ⟨u, hu⟩ := h2
    unfold admin_archive_rock
    rw [ht, hu]
  · simp [personnel_archive_rock]

/-- Witness for C7's amended theorem at the concretely archived store. -/
theorem archive_guard_witness :
    admin_archive_rock 1 9 "again" archivedDB = (ArchiveResult.conflict, archivedDB) :=
  (archive_guard 1 9 "again" archivedDB).1
    ⟨ownedVerifiedSample, by decide, rfl⟩
    ⟨Archive.mk 1 1 2 "cleanup" "archived", by decide, rfl⟩

/-- A store with a single active admin, user 1. -/
def adminDB : DB :=
  { samples := []
    images := []
    archives := []
    activity_logs := []
    approval_logs := []
    users := [User.mk 1 "admin" true]
    next_sample_id := 1
    next_image_id := 1
    next_archive_id := 1 }

/-- C8 counterexample: the toggle path has no self-check — admin 1
invoking the toggle on user id 1 (their own account) succeeds and flips
their active flag to false. -/
theorem admin_toggle_self_cex :
    adminDB.users.map (fun u => (u.user_id, u.is_active)) = [(1, true)] ∧
    (admin_toggle_user 1 adminDB).1 = UserResult.ok ∧
    (admin_toggle_user 1 adminDB).2.users.map (fun u => (u.user_id, u.is_active)) =
      [(1, false)] :=
  ⟨rfl, rfl, rfl⟩

/-- C8 amended: the delete path rejects self-deactivation with the store
unchanged, but the toggle path performs no self-check — toggling any
existing user id, the acting admin's own included, flips that user's
active flag. -/
theorem deactivate_self_guard (target actor : Nat) (db : DB) :
    (target = actor →
       admin_delete_user target actor db = (UserResult.rejected, db)) ∧
    (∀ u, db.users.find? (fun v => v.user_id == target) = some u →
       ∀ v ∈ (admin_toggle_user target db).2.users,
         v.user_id = target → v.is_active = !u.is_active) := by
  constructor
  · intro h
    unfold admin_delete_user
    rw [if_pos h]
  · intro u hu v hv hvid
    unfold admin_toggle_user at hv
    rw [hu] at hv
    have hv2 : v ∈ db.users.map (fun w =>
        if w.user_id == target then { w with is_active := !u.is_active } else w) := hv
    rcases List.mem_map.mp hv2 with ⟨w, hw, heq⟩
    by_cases hid : w.user_id == target
    · rw [if_pos hid] at heq
      rw [← heq]
    · rw [if_neg hid] at heq
      subst heq
      exact absurd (beq_iff_eq.mpr hvid) hid

/-- Witness for C8's amended theorem: self-deletion by admin 1 is
rejected, and toggling the admin's own id flips their flag. -/
theorem deactivate_self_guard_witness :
    admin_delete_user 1 1 adminDB = (UserResult.rejected, adminDB) ∧
    (User.mk 1 "admin" false).is_active = !(User.mk 1 "admin" true).is_active :=
  ⟨(deactivate_self_guard 1 1 adminDB).1 rfl,
   (deactivate_self_guard 1 1 adminDB).2 (User.mk 1 "admin" true) rfl
     (User.mk 1 "admin" false) (by decide) rfl⟩

/-- The (id, status, verifier) view of a sample row. -/
def statusView (s : Sample) : Nat × Status × Option Nat :=
  (s.sample_id, s.status, s.verified_by)

/-- A concrete staff edit form. -/
def demoEditForm : EditForm :=
  { rock_id := "IG-01"
    rock_type := "Igneous Rock"
    description := ""
    location_name := "Butuan"
    barangay := none
    province := none
    latitude := CoordField.value 9
    longitude := CoordField.value 125
    formation := ""
    rock_index := "" }

/-- C10: no edit path changes any sample's status or verifier — the
student path writes the previously read values back and the
personnel/admin paths omit the columns from the UPDATE. -/
theorem edits_preserve_status (db : DB) (hwf : WF db) (sid uid now : Nat)
    (rform : RockForm) (eform : EditForm) (files : Uploads) (rm : List Nat) :
    (student_edit_rock sid uid rform files now db).2.samples.map statusView =
      db.samples.map statusView ∧
    (personnel_edit_rock sid uid eform files rm now db).2.samples.map statusView =
      db.samples.map statusView ∧
    (admin_edit_rock sid uid eform files rm now db).2.samples.map statusView =
      db.samples.map statusView := by
  obtain ⟨hw1, hw2, hw3, hw4, hw5⟩ := hwf
  refine ⟨?_, ?_, ?_⟩
  · unfold student_edit_rock
    split
    · rfl
    · rename_i rock hrock
      split
      · rfl
      · have hrockmem := List.mem_of_find?_eq_some hrock
        have hrockpred := List.find?_some hrock
        simp only [Bool.and_eq_true_iff, Bool.or_eq_true_iff, beq_iff_eq] at hrockpred
        have hrid : rock.sample_id = sid := hrockpred.1.1
        show (db.samples.map _).map statusView = _
        rw [List.map_map]
        apply List.map_congr_left
        intro s hs
        by_cases hid : s.sample_id = sid
        · have hseq : s = rock :=
            List.inj_on_of_nodup_map hw2 hs hrockmem (by rw [hid, hrid])
          subst hseq
          simp [Function.comp_apply, hid, studentEditWrite, statusView]
        · simp [Function.comp_apply, hid, statusView]
  · unfold personnel_edit_rock
    split
    · rfl
    · split
      · rfl
      · show (db.samples.map _).map statusView = _
        rw [List.map_map]
        apply List.map_congr_left
        intro s hs
        by_cases hid : s.sample_id = sid
        · simp [Function.comp_apply, hid, staffEditWrite, statusView]
        · simp [Function.comp_apply, hid, statusView]
  · unfold admin_edit_rock
    split
    · rfl
    · split
      · rfl
      · show (db.samples.map _).map statusView = _
        rw [List.map_map]
        apply List.map_congr_left
        intro s hs
        by_cases hid : s.sample_id = sid
        · simp [Function.comp_apply, hid, staffEditWrite, statusView]
        · simp [Function.comp_apply, hid, statusView]

/-- Witness for C10 at a store with one verified sample: the student
edit (which is accepted on a verified own sample) leaves the status view
unchanged. -/
theorem edits_preserve_status_witness :
    WF ownedVerifiedDB ∧
    (student_edit_rock 1 5 retypeForm noFiles 9 ownedVerifiedDB).2.samples.map statusView =
      ownedVerifiedDB.samples.map statusView :=
  ⟨by simp [WF, ownedVerifiedDB, ownedVerifiedSample],
   (edits_preserve_status ownedVerifiedDB
      (by simp [WF, ownedVerifiedDB, ownedVerifiedSample]) 1 5 9 retypeForm
      demoEditForm noFiles []).1⟩

end RockCatalog
